import Mathlib

/-!
Verification of the task-spawning core of `xfix/runtime` (`src/task.rs`):
the `Spawner` capability handle, the `spawn` entry point, and the
`JoinHandle` task handle, against the repository's specification.

Panics are modelled with `Option` (`none` means the execution context
aborts).  The external collaborators — the `futures` one-shot result
channel and the `runtime_raw` backend registry — are not part of
`src/task.rs`; they are modelled from the spec's description of them.
-/

namespace Runtime

/-- `futures::task::Poll`: the outcome of polling a future. -/
inductive Poll (α : Type) where
  | pending : Poll α
  | ready : α → Poll α
  deriving DecidableEq, Repr

/-- Modelled from the spec: the state of the one-shot Result Channel
(`futures::channel::oneshot`, an external primitive): single-use,
single-producer/single-consumer, carrying at most one value; either
unresolved, resolved with a sent value, or closed because the sender was
dropped without sending. -/
inductive ChannelState (T : Type) where
  | unresolved : ChannelState T
  | sent : T → ChannelState T
  | closed : ChannelState T
  deriving DecidableEq, Repr

/-- Modelled from the spec: how a Result Channel may evolve between two
observations.  The channel is single-use: an unresolved channel may
receive a value (the sender fires) or close (the sender is dropped
without sending); `sent` and `closed` are terminal, so a resolved channel
never changes again. -/
inductive ChannelStep (T : Type) : ChannelState T → ChannelState T → Prop where
  | send (t : T) : ChannelStep T ChannelState.unresolved (ChannelState.sent t)
  | close : ChannelStep T ChannelState.unresolved ChannelState.closed
  | stay (s : ChannelState T) : ChannelStep T s s

/-- Modelled from the spec: `oneshot::Sender::send` on the external Result
Channel primitive.  Returns `Ok(())` and resolves the channel when the
receiver is still alive; returns `Err(t)` (handing the value back) when
the receiver was dropped, in which case sending is a no-op on any
observer. -/
def oneshotSend {T : Type} (receiverAlive : Bool) (t : T) :
    Except T Unit × ChannelState T :=
  if receiverAlive then (Except.ok (), ChannelState.sent t)
  else (Except.error t, ChannelState.closed)

/-- Modelled from the spec: `oneshot::Receiver` polling, the external
Result Channel primitive consumed by `JoinHandle::poll`: `Pending` while
the channel is unresolved, `Ready(Ok(t))` once a value `t` was sent,
`Ready(Err(Canceled))` once the sender was dropped without sending. -/
def receiverPoll {T : Type} (st : ChannelState T) : Poll (Except Unit T) :=
  match st with
  | ChannelState.unresolved => Poll.pending
  | ChannelState.sent t => Poll.ready (Except.ok t)
  | ChannelState.closed => Poll.ready (Except.error ())

/-- `futures::task::SpawnError`: the error returned when a spawn
submission is refused (the executor is shut down or absent). -/
inductive SpawnError where
  | shutdown : SpawnError
  deriving DecidableEq, Repr

/-- Modelled from the spec: the Backend Registry's active engine
(`runtime_raw::current_runtime()`), which is not under `src/`.  `active`
says whether an engine is currently installed and accepting work;
`queue` holds the task bodies it has accepted, of an abstract body type
`β`. -/
structure Backend (β : Type) where
  active : Bool
  queue : List β
  deriving DecidableEq, Repr

/-- Modelled from the spec: `runtime_raw::current_runtime().spawn_boxed`
— asks the active engine to execute a type-erased task body; returns
`Ok(())` on acceptance (the body joins the engine's work) or
`Err(SpawnError)` when no engine is currently active. -/
def Backend.spawnBoxed {β : Type} (b : Backend β) (task : β) :
    Except SpawnError Unit × Backend β :=
  if b.active then (Except.ok (), { b with queue := b.queue ++ [task] })
  else (Except.error SpawnError.shutdown, b)

/-- The `Spawner` capability handle from `src/task.rs`: a stateless
marker with a single opaque reserved field. -/
structure Spawner where
  mk ::
  reservedSlot : Unit
  deriving DecidableEq, Repr

/-- `Spawner::new()`. -/
def Spawner.new : Spawner := { reservedSlot := () }

/-- `impl Default for Spawner`: `Self::new()`. -/
def Spawner.defaultHandle : Spawner := Spawner.new

/-- `impl Clone for Spawner`: `Self::new()` (ignores `self`). -/
def Spawner.clone (_s : Spawner) : Spawner := Spawner.new

/-- `impl Spawn for &'a Spawner`: `spawn_obj` submits the future object
to the backend registry's current engine via `spawn_boxed`.  The
`Spawner` itself is only read. -/
def Spawner.spawnObjRef {β : Type} (_s : Spawner) (b : Backend β)
    (future : β) : Except SpawnError Unit × Backend β :=
  b.spawnBoxed future

/-- `impl Spawn for Spawner`: `spawn_obj` takes the handle by mutable
reference and delegates to the `&Spawner` implementation, `(&*self)
.spawn_obj(future)`.  The returned `Spawner` is the state of the handle
after the call. -/
def Spawner.spawnObjOwned {β : Type} (s : Spawner) (b : Backend β)
    (future : β) : (Except SpawnError Unit × Backend β) × Spawner :=
  (Spawner.spawnObjRef s b future, s)

/-- A sequence of submissions through one owned `Spawner`, threading the
handle and the backend through each call; returns the final handle and
backend. -/
def Spawner.submitAll {β : Type} (s : Spawner) (b : Backend β)
    (futures : List β) : Spawner × Backend β :=
  match futures with
  | [] => (s, b)
  | f :: rest =>
      let r := Spawner.spawnObjOwned s b f
      Spawner.submitAll r.2 r.1.2 rest

/-- The wrapper future built inside `spawn`: `async move { let t =
fut.await; let _ = tx.send(t); }`.  `t` is the value the body produced;
the send result is discarded by `let _ =`, so the wrapper always
completes normally (`some ()`); the second component is the resulting
channel state. -/
def spawnedBody {T : Type} (t : T) (receiverAlive : Bool) :
    Option Unit × ChannelState T :=
  let r := oneshotSend receiverAlive t
  (some (), r.2)

/-- The `JoinHandle<T>` task handle: owns the receiving end of one
Result Channel; `rx` is the channel state it currently observes. -/
structure JoinHandle (T : Type) where
  rx : ChannelState T
  deriving DecidableEq, Repr

/-- `impl Future for JoinHandle<T>`: `poll` matches `rx.poll_unpin`:
`Pending` stays pending, `Ready(Ok(t))` yields `Ready(t)`, and
`Ready(Err(_))` panics — modelled as `none`, aborting the awaiting
execution context. -/
def JoinHandle.poll {T : Type} (h : JoinHandle T) : Option (Poll T) :=
  match receiverPoll h.rx with
  | Poll.pending => some Poll.pending
  | Poll.ready (Except.ok t) => some (Poll.ready t)
  | Poll.ready (Except.error _) => none

/-- `runtime::spawn`: creates a fresh one-shot channel, wraps the task
body (represented by the value `fut` it will produce) so its output is
sent on the channel, submits the wrapper via `spawn_boxed`, and panics
(`.expect("cannot spawn a future")`, modelled as `none`) if submission
fails; otherwise returns the `JoinHandle` over the fresh (still
unresolved) channel together with the updated backend. -/
def spawn {T : Type} (b : Backend T) (fut : T) :
    Option (JoinHandle T × Backend T) :=
  let r := b.spawnBoxed fut
  match r.1 with
  | Except.error _ => none
  | Except.ok _ => some ({ rx := ChannelState.unresolved }, r.2)

/-- End-to-end execution of one spawned task: `spawn` the body on
backend `b`, let the backend run the wrapped body it accepted (the
caller still holds the handle, so the receiver is alive), then poll the
handle over the resulting channel state.  `none` means some execution
context aborted along the way. -/
def spawnRunAwait {T : Type} (b : Backend T) (fut : T) : Option (Poll T) :=
  match spawn b fut with
  | none => none
  | some hb =>
      match hb.2.queue.getLast? with
      | none => none
      | some v => JoinHandle.poll { rx := (spawnedBody v true).2 }

end Runtime

namespace Runtime

/-- A resolved channel that received a value never changes under one
channel step. -/
theorem channelStep_sent_fixed {T : Type} {t : T} {s' : ChannelState T}
    (h : ChannelStep T (ChannelState.sent t) s') :
    s' = ChannelState.sent t := by
  cases h
  rfl

/-- A closed channel never changes under one channel step. -/
theorem channelStep_closed_fixed {T : Type} {s' : ChannelState T}
    (h : ChannelStep T ChannelState.closed s') :
    s' = ChannelState.closed := by
  cases h
  rfl

/-- A resolved channel that received a value never changes under any
sequence of channel steps. -/
theorem reflTrans_sent_fixed {T : Type} {t : T} {s' : ChannelState T}
    (h : Relation.ReflTransGen (ChannelStep T) (ChannelState.sent t) s') :
    s' = ChannelState.sent t := by
  induction h with
  | refl => rfl
  | tail _h step ih =>
      subst ih
      exact channelStep_sent_fixed step

/-- A closed channel never changes under any sequence of channel steps. -/
theorem reflTrans_closed_fixed {T : Type} {s' : ChannelState T}
    (h : Relation.ReflTransGen (ChannelStep T) ChannelState.closed s') :
    s' = ChannelState.closed := by
  induction h with
  | refl => rfl
  | tail _h step ih =>
      subst ih
      exact channelStep_closed_fixed step

/-- C1: for every type `T` and value `v`, spawning on an active backend a
task body that produces `v` and then awaiting the returned `JoinHandle`
— the backend runs the wrapped body, which sends `v` through the fresh
one-shot channel the handle polls — yields exactly `Poll.ready v`, with
no context aborting. -/
theorem spawn_await_yields_value (T : Type) (v : T) (b : Backend T)
    (hb : b.active = true) :
    spawnRunAwait b v = some (Poll.ready v) := by
  simp [spawnRunAwait, spawn, Backend.spawnBoxed, hb, spawnedBody,
    oneshotSend, JoinHandle.poll, receiverPoll]

/-- Witness for C1 at `T = Nat`, `v = 42`, an active empty backend. -/
theorem spawn_await_yields_value_witness :
    ((⟨true, []⟩ : Backend Nat).active = true) ∧
      spawnRunAwait (⟨true, []⟩ : Backend Nat) 42 = some (Poll.ready 42) :=
  ⟨rfl, spawn_await_yields_value Nat 42 ⟨true, []⟩ rfl⟩

/-- C2: if a `JoinHandle`'s channel closed without a value (sender
dropped without sending), polling the handle aborts the awaiting
execution context (`none`), yielding neither a value nor a recoverable
error. -/
theorem poll_disconnected_aborts (T : Type) (h : JoinHandle T)
    (hc : h.rx = ChannelState.closed) :
    JoinHandle.poll h = none := by
  simp [JoinHandle.poll, hc, receiverPoll]

/-- Witness for C2 at `T = Nat` on a handle whose channel is closed. -/
theorem poll_disconnected_aborts_witness :
    ({ rx := ChannelState.closed } : JoinHandle Nat).rx
        = ChannelState.closed ∧
      JoinHandle.poll ({ rx := ChannelState.closed } : JoinHandle Nat)
        = none :=
  ⟨rfl, poll_disconnected_aborts Nat { rx := ChannelState.closed } rfl⟩

/-- C3: for every task body, when the backend is not active — so
submission of the wrapped body fails — `spawn` aborts the calling
execution context (`none`): it never returns a `JoinHandle` and never
returns a recoverable error value. -/
theorem spawn_no_backend_aborts (T : Type) (b : Backend T) (fut : T)
    (hb : b.active = false) :
    spawn b fut = none := by
  simp [spawn, Backend.spawnBoxed, hb]

/-- Witness for C3 at `T = Nat` on an inactive backend. -/
theorem spawn_no_backend_aborts_witness :
    ((⟨false, []⟩ : Backend Nat).active = false) ∧
      spawn (⟨false, []⟩ : Backend Nat) 7 = none :=
  ⟨rfl, spawn_no_backend_aborts Nat ⟨false, []⟩ 7 rfl⟩

/-- C4: submitting through the `Spawner` capability handle
(`<&Spawner as Spawn>::spawn_obj`) with no active backend returns the
error value `Err(SpawnError)` to the caller, leaving the backend
unchanged and not aborting; with an active backend it returns `Ok(())`. -/
theorem spawner_spawn_obj_error_value (β : Type) (s : Spawner)
    (b : Backend β) (future : β) :
    (b.active = false →
      Spawner.spawnObjRef s b future
        = (Except.error SpawnError.shutdown, b)) ∧
    (b.active = true →
      (Spawner.spawnObjRef s b future).1 = Except.ok ()) := by
  constructor
  · intro hb
    simp [Spawner.spawnObjRef, Backend.spawnBoxed, hb]
  · intro hb
    simp [Spawner.spawnObjRef, Backend.spawnBoxed, hb]

/-- Witness for C4 at `β = Nat` on an inactive backend: the submission
returns an error value and leaves the backend unchanged. -/
theorem spawner_spawn_obj_error_value_witness :
    ((⟨false, []⟩ : Backend Nat).active = false) ∧
      Spawner.spawnObjRef Spawner.new (⟨false, []⟩ : Backend Nat) 5
        = (Except.error SpawnError.shutdown, ⟨false, []⟩) :=
  ⟨rfl,
    (spawner_spawn_obj_error_value Nat Spawner.new ⟨false, []⟩ 5).1 rfl⟩

/-- C5: a `JoinHandle` never regresses: across any sequence of channel
steps, once a poll observed `Poll.ready t` every subsequent poll yields
the same `Poll.ready t`, and once a poll observed the disconnected
terminal state (abort, `none`) every subsequent poll observes it too; in
particular a resolved handle never returns to `Poll.pending`. -/
theorem join_handle_no_regression (T : Type) (s s' : ChannelState T)
    (t : T)
    (hsteps : Relation.ReflTransGen (ChannelStep T) s s') :
    (JoinHandle.poll { rx := s } = some (Poll.ready t) →
      JoinHandle.poll { rx := s' } = some (Poll.ready t)) ∧
    (JoinHandle.poll { rx := s } = none →
      JoinHandle.poll { rx := s' } = none) := by
  constructor
  · intro hpoll
    have hs : s = ChannelState.sent t := by
      cases s with
      | unresolved => simp [JoinHandle.poll, receiverPoll] at hpoll
      | sent u =>
          simp [JoinHandle.poll, receiverPoll] at hpoll
          simp [hpoll]
      | closed => simp [JoinHandle.poll, receiverPoll] at hpoll
    subst hs
    have := reflTrans_sent_fixed hsteps
    subst this
    rfl
  · intro hpoll
    have hs : s = ChannelState.closed := by
      cases s with
      | unresolved => simp [JoinHandle.poll, receiverPoll] at hpoll
      | sent u => simp [JoinHandle.poll, receiverPoll] at hpoll
      | closed => rfl
    subst hs
    have := reflTrans_closed_fixed hsteps
    subst this
    rfl

/-- Witness for C5 at `T = Nat`, a channel already resolved with `3` and
the empty sequence of further steps. -/
theorem join_handle_no_regression_witness :
    Relation.ReflTransGen (ChannelStep Nat)
        (ChannelState.sent 3) (ChannelState.sent 3) ∧
      ((JoinHandle.poll { rx := ChannelState.sent 3 }
            = some (Poll.ready 3) →
        JoinHandle.poll { rx := ChannelState.sent 3 }
            = some (Poll.ready 3)) ∧
       (JoinHandle.poll { rx := ChannelState.sent 3 } = none →
        JoinHandle.poll { rx := ChannelState.sent 3 } = none)) :=
  ⟨Relation.ReflTransGen.refl,
    join_handle_no_regression Nat (ChannelState.sent 3)
      (ChannelState.sent 3) 3 Relation.ReflTransGen.refl⟩

/-- C6: capability handles obtained by cloning and by fresh construction
(`new` or `default`) are interchangeable: all three constructions yield
the same stateless handle, and submitting an identical task body through
any two handles yields the identical outcome. -/
theorem spawner_constructions_interchangeable (β : Type)
    (s s1 s2 : Spawner) (b : Backend β) (future : β) :
    Spawner.clone s = Spawner.new ∧
    Spawner.defaultHandle = Spawner.new ∧
    Spawner.spawnObjRef s1 b future = Spawner.spawnObjRef s2 b future :=
  ⟨rfl, rfl, rfl⟩

/-- C7: `JoinHandle.poll` maps the channel receiver's state exactly:
unresolved gives `Poll.pending`, a received value `t` gives
`Poll.ready t`, and a channel closed without a value is observed as the
channel-closed condition (the aborting path, `none`). -/
theorem poll_maps_channel_state (T : Type) (t : T) :
    JoinHandle.poll ({ rx := ChannelState.unresolved } : JoinHandle T)
        = some Poll.pending ∧
    JoinHandle.poll ({ rx := ChannelState.sent t } : JoinHandle T)
        = some (Poll.ready t) ∧
    JoinHandle.poll ({ rx := ChannelState.closed } : JoinHandle T)
        = none :=
  ⟨rfl, rfl, rfl⟩

/-- C8: the wrapper built by `spawn` ignores send failure: when the
receiver is gone the one-shot send fails (`Err(t)`), yet the wrapper
discards the send result and completes normally (`some ()`) for every
receiver state — fire-and-forget, never an error. -/
theorem spawned_body_ignores_send_failure (T : Type) (t : T) :
    (oneshotSend false t).1 = Except.error t ∧
    (∀ receiverAlive : Bool,
      (spawnedBody t receiverAlive).1 = some ()) := by
  refine ⟨rfl, ?_⟩
  intro receiverAlive
  rfl

/-- C9: the two `Spawn` implementations are equivalent: `spawn_obj` on
an owned `Spawner` delegates to the `&Spawner` implementation, so for
every future object both produce the same submission result and backend
state. -/
theorem spawn_obj_owned_delegates (β : Type) (s : Spawner)
    (b : Backend β) (future : β) :
    (Spawner.spawnObjOwned s b future).1
      = Spawner.spawnObjRef s b future :=
  rfl

/-- C10: every operation on a `Spawner` leaves it unchanged: any two
`Spawner` values are structurally identical, one `spawn_obj` call
returns the handle unmodified, and any sequence of submissions returns
the handle unmodified. -/
theorem spawner_unchanged (β : Type) (s1 s2 : Spawner) (b : Backend β)
    (future : β) (futures : List β) :
    s1 = s2 ∧
    (Spawner.spawnObjOwned s1 b future).2 = s1 ∧
    (Spawner.submitAll s1 b futures).1 = s1 := by
  obtain ⟨⟨⟩⟩ := s1
  obtain ⟨⟨⟩⟩ := s2
  refine ⟨rfl, rfl, ?_⟩
  induction futures generalizing b with
  | nil => rfl
  | cons f rest ih => simp [Spawner.submitAll, ih]

end Runtime
